import Mathlib

/-!
Verification development for the API-explanation-and-cataloguing pipeline
(`main.py`).  The Python source is shallowly embedded: each pipeline stage
becomes an executable Lean definition, the filesystem and the external
text-generation service become explicit parameters, and the claims about the
spec are settled as theorems over these definitions.
-/

/-! ## Python string primitives used by the source -/

/-- Python `s.split("\n")` on the character list: splits at every newline,
keeping empty segments, and always yields at least one segment
(`"".split("\n") == [""]`). -/
def pySplitChars : List Char → List (List Char)
  | [] => [[]]
  | c :: cs =>
    match pySplitChars cs with
    | [] => [[]]
    | r :: rs => if c = '\n' then [] :: r :: rs else (c :: r) :: rs

/-- Joins segments with a newline character: the left inverse of
`pySplitChars`. -/
def joinNLChars : List (List Char) → List Char
  | [] => []
  | [l] => l
  | l :: ls => l ++ '\n' :: joinNLChars ls

/-- `main.py` line 203: `generate_response(prompt, 1000).split("\n")` —
the raw response text split on newline characters, nothing removed. -/
def splitNewlines (s : String) : List String :=
  (pySplitChars s.data).map String.mk

/-- Joining the split lines with newlines, at `String` level. -/
def joinNewlines (ls : List String) : String :=
  String.mk (joinNLChars (ls.map String.data))

/-- Python `s.endswith(suffix)`: the raw string, untrimmed, ends with the
given suffix (`main.py` line 210: `filepath.endswith(".py")`). -/
def pyEndsWith (s suffix : String) : Bool :=
  suffix.data.isSuffixOf s.data

/-- Python `s[:len(s) // 2]` (`main.py` lines 240-242): `mid_index` is
`len(file_contents_str) // 2` and the slice keeps exactly the first
`mid_index` characters. -/
def firstHalf (s : String) : String :=
  String.mk (s.data.take (s.data.length / 2))

/-! ## Filesystem model -/

/-- Outcome of Python `open(filepath, "r")` followed by `.read()`:
success with the file text, `FileNotFoundError`, or any other exception
(`IsADirectoryError`, `PermissionError`, decode errors, ...). -/
inductive OpenResult : Type where
  | ok (content : String) : OpenResult
  | notFound : OpenResult
  | ioError (msg : String) : OpenResult
deriving DecidableEq, Repr

/-- Whether the open-and-read succeeded. -/
def OpenResult.isOk : OpenResult → Bool
  | .ok _ => true
  | _ => false

/-! ## Python dict (`file_contents`) -/

/-- Python `d[k] = v` on a dict represented as an insertion-ordered
association list with distinct keys: an existing key keeps its position and
gets the new value, a new key is appended at the end. -/
def dictInsert : List (String × String) → String → String →
    List (String × String)
  | [], k, v => [(k, v)]
  | q :: rest, k, v =>
      if q.1 = k then (k, v) :: rest else q :: dictInsert rest k v

/-- The keys of the dict, in insertion order. -/
def dictKeys (m : List (String × String)) : List String :=
  m.map Prod.fst

/-! ## Content Loader (`main.py` lines 206-221) -/

/-- State of the loading loop: the `file_contents` dict plus the
`logging.error` diagnostics emitted so far. -/
structure LoadState : Type where
  file_contents : List (String × String)
  diagnostics : List String
deriving DecidableEq, Repr

/-- One iteration of the loop at `main.py` lines 207-221, for a single
candidate `filepath`.  Only `.py` files are considered (line 210, raw
string, no trimming); `open` + `read` either succeeds and the dict is
assigned (lines 211-212), or the entry is skipped with a diagnostic:
a non-`.py` path (line 214), a `FileNotFoundError` (lines 215-218), or any
other exception (lines 219-221).  The loop never aborts. -/
def loadStep (openF : String → OpenResult) (st : LoadState)
    (filepath : String) : LoadState :=
  if pyEndsWith filepath (".py") then
    match openF filepath with
    | .ok content =>
        { st with file_contents := dictInsert st.file_contents filepath content }
    | .notFound =>
        { st with diagnostics :=
            st.diagnostics ++ ["Filepath " ++ filepath ++ " does not exist!"] }
    | .ioError e =>
        { st with diagnostics :=
            st.diagnostics ++
              ["Exception occurred while reading " ++ filepath ++ ": " ++ e] }
  else
    { st with diagnostics :=
        st.diagnostics ++ ["Attempted to parse a non-python file: " ++ filepath] }

/-- The whole loading loop (`main.py` lines 206-221): fold `loadStep` over
the identified candidate paths, starting from the empty dict. -/
def loadContents (openF : String → OpenResult) (candidates : List String) :
    LoadState :=
  candidates.foldl (loadStep openF) ⟨[], []⟩

/-- A candidate is admitted to `file_contents` exactly when the raw string
ends with `.py` and the open-and-read succeeds. -/
def admitted (openF : String → OpenResult) (p : String) : Bool :=
  pyEndsWith p (".py") && (openF p).isOk

/-! ## Project Scanner (`main.py` lines 144-164) -/

mutual
/-- A directory on disk: the regular files it directly contains and its
subdirectories, mirroring the `(root, dirs, files)` triples that `os.walk`
yields. -/
inductive DirTree : Type where
  | node : List String → DirForest → DirTree
deriving DecidableEq
/-- A list of named subdirectories. -/
inductive DirForest : Type where
  | leaf : DirForest
  | cons : String → DirTree → DirForest → DirForest
deriving DecidableEq
end

mutual
/-- `os.walk(project_path)` consumed by the loop at `main.py` lines 157-159:
top-down traversal, appending `os.path.join(root, file)` for every regular
file of the current directory before descending into its subdirectories.
Path joining is modelled as `root ++ "/" ++ name` (exact for roots not
already ending in a separator). -/
def walkTree (root : String) : DirTree → List String
  | .node files subs =>
      files.map (fun f => root ++ "/" ++ f) ++ walkForest root subs
/-- Walk every subdirectory of the forest in order. -/
def walkForest (root : String) : DirForest → List String
  | .leaf => []
  | .cons name t rest =>
      walkTree (root ++ "/" ++ name) t ++ walkForest root rest
end

mutual
/-- Number of regular files anywhere under a directory. -/
def countTree : DirTree → Nat
  | .node files subs => files.length + countForest subs
/-- Number of regular files anywhere under a forest of subdirectories. -/
def countForest : DirForest → Nat
  | .leaf => 0
  | .cons _ t rest => countTree t + countForest rest
end

mutual
/-- Whether a nonempty sequence of path segments names a regular file
inside the tree: the last segment is a file name, every earlier segment
descends into a subdirectory. -/
def isFileTree : DirTree → List String → Bool
  | _, [] => false
  | .node files _, [name] => files.contains name
  | .node _ subs, name :: seg :: segs => isFileForest subs name (seg :: segs)
/-- Whether segment sequence `name :: segs` names a regular file in some
subdirectory of the forest. -/
def isFileForest : DirForest → String → List String → Bool
  | .leaf, _, _ => false
  | .cons n t rest, name, segs =>
      (n == name && isFileTree t segs) || isFileForest rest name segs
end

/-- Join a root path with relative segments, one separator per segment. -/
def joinSegs (root : String) (segs : List String) : String :=
  segs.foldl (fun acc s => acc ++ "/" ++ s) root

/-- The filesystem as the pipeline sees it: which paths name existing,
readable directories (and their contents), and what opening a path for
reading yields. -/
structure Filesystem : Type where
  dirTree : String → Option DirTree
  openFile : String → OpenResult

/-- `main.py` lines 144-164.  The body iterates `os.walk(project_path)` and
collects full file paths.  When `project_path` does not exist or is not
readable, `os.walk` raises nothing: its internal `scandir` error is passed
to the `onerror` callback, which is `None` by default, so the error is
ignored and the walk yields no triples (Python documentation for
`os.walk`).  The function therefore returns `[]` in that case; the
`except FileNotFoundError` branch at lines 162-164 is unreachable from the
walk loop. -/
def get_filepaths_from_path (fs : Filesystem) (project_path : String) :
    List String :=
  match fs.dirTree project_path with
  | some t => walkTree project_path t
  | none => []

/-! ## Prompt templates and constants (`main.py` lines 16, 28-94, 236) -/

/-- Classification prompt template, `main.py` lines 28-41. -/
def PROMPT_IDENTIFY_API : String :=
  "\nYou are an expert in analyzing software project structures. Given a list of file paths, identify which directory (or directories) is most likely the API directory. API directories often contain files related to request handling, such as routes/, controllers/, api/, or endpoints/. Consider naming conventions and directory structures used in common web frameworks (Node.js, Django, Flask, etc.).\n\nHere is the list of file paths:\n\n<PATHS>\n\nOnly return the file paths with the APIs, each path on their own line, like so:\n    path 1\n    path 2\n    path n\n\nDo not add any other explanation or other response text. Only include the .py python files. Ignore all __init__.py files and other not-source-code related files.\n"

/-- Documentation-synthesis prompt template, `main.py` lines 43-70. -/
def PROMPT_GENERATE_DOCUMENTATION : String :=
  "\nYou are an AI-powered documentation generator. Your task is to generate a Swagger (OpenAPI 3.0.0) YAML specification based on a given dictionary of file paths and their contents.\nRequirements:\n\n    - Extract API details from the given file contents, including:\n        - Endpoint Purpose: A brief description of what the endpoint does.\n        - Request Method: (e.g., GET, POST, PUT, DELETE).\n        - URL Path: The endpoint\u00E2\u20AC\u2122s path.\n        - Parameters: Identify query parameters, request body, headers, and path variables.\n        - Responses: Define expected response codes (200, 400, 500, etc.) and their descriptions.\n        - Request/Response Examples: If available, include JSON examples for clarity.\n    - Ensure the documentation follows Swagger best practices and is structured properly.\n    - Keep the YAML output under 10,000 characters.\n\nInstructions:\n\n    - Parse the given dictionary, where:\n        - Keys represent file paths.\n        - Values contain the code and comments that define API endpoints.\n    - Extract relevant API details and organize them in Swagger-compliant YAML format.\n    - Do not include any text that is not part of the YAML documentation.\n    - Ensure proper indentation and formatting to maintain readability.\n\nDo not include any backticks or other markdown formatting, the user is expecting the entire file to be in valid yaml syntax.\n\nHere are the file contents:\n<FILE CONTENTS>\n"

/-- New-endpoint-synthesis prompt template, `main.py` lines 72-94. -/
def PROMPT_GENERATE_NEW_ENDPOINT : String :=
  "\nYou are an AI assistant specializing in generating API endpoints for web applications. Given a project structure and a description of the desired functionality, your task is to generate a new API endpoint.\n\n### Requirements:\n- The generated code must follow best practices for API development.\n- Include proper request validation.\n- Implement appropriate HTTP methods (GET, POST, PUT, DELETE) based on the functionality.\n- Include clear comments explaining each part of the code.\n- If authentication or authorization is required, incorporate it accordingly.\n- Ensure error handling for invalid requests and unexpected failures.\n- Return responses in JSON format, following RESTful API principles.\n\n### Instructions:\n- Analyze the provided project structure to determine where the new endpoint should be placed.\n- Use the given functionality description to generate the correct API logic.\n- Ensure that the endpoint follows the conventions of the detected framework.\n- Only return the generated Python code, without additional explanation.\n\n**Inputs:**\n- Project structure: <PATHS>\n- Functionality description: <DESCRIPTION>\n- Project file contents: <FILE CONTENTS>\n"

/-- `main.py` line 16: the fixed artifact file name. -/
def SWAGGER_FILE_FILEPATH : String := "api_documentation_swagger.yaml"

/-- `main.py` line 236: the hard-coded description for the new endpoint. -/
def new_endpoint_description : String :=
  "I want to create a new endpoint which deletes user agents from all devices"

/-! ## Python `str()` of lists and dicts (used to build prompts) -/

/-- Python `repr` of a string: single-quoted.  Exact for strings without
quotes, backslashes or control characters; the prompts built from it are
opaque to every property proved here. -/
def pyReprStr (s : String) : String := "\x27" ++ s ++ "\x27"

/-- Python `str()` of a list of strings (`main.py` lines 202, 237). -/
def pyStrList (xs : List String) : String :=
  "[" ++ String.intercalate (", ") (xs.map pyReprStr) ++ "]"

/-- Python `str()` of a dict from strings to strings (`main.py` lines 224,
240). -/
def pyStrDict (m : List (String × String)) : String :=
  "\x7b" ++
    String.intercalate (", ")
      (m.map (fun kv => pyReprStr kv.1 ++ ": " ++ pyReprStr kv.2)) ++
  "\x7d"

/-! ## Text-generation service and the main pipeline (`main.py` 117-141, 188-247) -/

/-- The external text-generation service, modelled as the sequence of
outcomes of its successive calls: the i-th call made by the run returns
`svc i`, either generated text or a `ServiceError` message (network, auth,
quota).  The service is a black box, so the outcome is independent of the
prompt text. -/
abbrev ServiceOracle := Nat → Except String String

/-- `main.py` lines 117-141 (`generate_response`): performs the i-th
service call.  The Python wrapper catches any exception, logs it and
re-raises (lines 139-141), so the outcome — generated text or the
propagated error — is the service outcome unchanged. -/
def generate_response (svc : ServiceOracle) (i : Nat) (prompt : String)
    (max_len : Nat) : Except String String :=
  let _ := prompt
  let _ := max_len
  svc i

/-- One service call as issued by the run: the prompt text and the
`max_tokens` budget passed to `generate_response`. -/
structure ServiceCall : Type where
  prompt : String
  max_len : Nat
deriving DecidableEq

/-- Observable outcome of one run of `main()` (`main.py` lines 188-247):
the service calls issued in order, the files written to the working
directory in order, whether the run finished or terminated with a
propagated error, and (as a ghost observation for specification purposes)
the ClassificationResult the run operated on. -/
structure RunResult : Type where
  calls : List ServiceCall
  writes : List (String × String)
  outcome : Except String Unit
  classified : List String

/-- `main.py` line 202: the classification prompt, the template with the
serialized scan result substituted for `<PATHS>`. -/
def classificationPrompt (fs : Filesystem) (project_path : String) : String :=
  String.replace PROMPT_IDENTIFY_API ("<PATHS>")
    (pyStrList (get_filepaths_from_path fs project_path))

/-- `main.py` line 224: the documentation prompt, the template with the
serialized `file_contents` dict substituted for `<FILE CONTENTS>`. -/
def documentationPrompt (m : List (String × String)) : String :=
  String.replace PROMPT_GENERATE_DOCUMENTATION ("<FILE CONTENTS>")
    (pyStrDict m)

/-- `main.py` lines 237-245: the new-endpoint prompt.  `<PATHS>` gets the
serialized scan result, `<FILE CONTENTS>` gets only the first half of the
serialized `file_contents` dict (lines 240-242), `<DESCRIPTION>` gets the
hard-coded description. -/
def newEndpointPrompt (fs : Filesystem) (project_path : String)
    (m : List (String × String)) : String :=
  String.replace
    (String.replace
      (String.replace PROMPT_GENERATE_NEW_ENDPOINT ("<PATHS>")
        (pyStrList (get_filepaths_from_path fs project_path)))
      ("<FILE CONTENTS>") (firstHalf (pyStrDict m)))
    ("<DESCRIPTION>") new_endpoint_description

/-- `main.py` lines 188-247 (`main`), with logging dropped.  The run:
scans `project_path` (line 199); builds the classification prompt and calls
the service with `max_tokens = 1000`, splitting the raw response on
newlines (lines 202-203); loads file contents (lines 206-221); builds the
documentation prompt and calls the service with `max_tokens = 10000`
(lines 224-225); writes the response to `api_documentation_swagger.yaml`
(lines 229-231); builds the new-endpoint prompt and calls the service with
`max_tokens = 10000` (lines 236-246).  An uncaught exception from any call
aborts the run at that point. -/
def runMain (fs : Filesystem) (svc : ServiceOracle) (project_path : String) :
    RunResult :=
  let prompt1 := classificationPrompt fs project_path
  match generate_response svc 0 prompt1 1000 with
  | .error e =>
      { calls := [⟨prompt1, 1000⟩], writes := [], outcome := .error e,
        classified := [] }
  | .ok raw =>
    let identified_api_endpoints := splitNewlines raw
    let st := loadContents fs.openFile identified_api_endpoints
    let prompt2 := documentationPrompt st.file_contents
    match generate_response svc 1 prompt2 10000 with
    | .error e =>
        { calls := [⟨prompt1, 1000⟩, ⟨prompt2, 10000⟩], writes := [],
          outcome := .error e, classified := identified_api_endpoints }
    | .ok generated_api_documentation =>
      let writes1 := [(SWAGGER_FILE_FILEPATH, generated_api_documentation)]
      let prompt3 := newEndpointPrompt fs project_path st.file_contents
      match generate_response svc 2 prompt3 10000 with
      | .error e =>
          { calls := [⟨prompt1, 1000⟩, ⟨prompt2, 10000⟩, ⟨prompt3, 10000⟩],
            writes := writes1, outcome := .error e,
            classified := identified_api_endpoints }
      | .ok _new_api_endpoint_code =>
          { calls := [⟨prompt1, 1000⟩, ⟨prompt2, 10000⟩, ⟨prompt3, 10000⟩],
            writes := writes1, outcome := .ok (),
            classified := identified_api_endpoints }

/-! ## Loader lemmas -/

/-- The `file_contents` component of one loader iteration, in isolation. -/
def fcStep (openF : String → OpenResult) (m : List (String × String))
    (p : String) : List (String × String) :=
  if pyEndsWith p (".py") then
    match openF p with
    | .ok content => dictInsert m p content
    | _ => m
  else m

/-- The diagnostics emitted by one loader iteration, in isolation. -/
def diagOf (openF : String → OpenResult) (p : String) : List String :=
  if pyEndsWith p (".py") then
    match openF p with
    | .ok _ => []
    | .notFound => ["Filepath " ++ p ++ " does not exist!"]
    | .ioError e => ["Exception occurred while reading " ++ p ++ ": " ++ e]
  else ["Attempted to parse a non-python file: " ++ p]

theorem loadStep_file_contents (openF : String → OpenResult) (st : LoadState)
    (p : String) :
    (loadStep openF st p).file_contents = fcStep openF st.file_contents p := by
  unfold loadStep fcStep
  cases h : pyEndsWith p (".py")
  · simp [h]
  · cases openF p <;> simp [h]

theorem loadStep_diagnostics (openF : String → OpenResult) (st : LoadState)
    (p : String) :
    (loadStep openF st p).diagnostics = st.diagnostics ++ diagOf openF p := by
  unfold loadStep diagOf
  cases h : pyEndsWith p (".py")
  · simp [h]
  · cases openF p <;> simp [h]

theorem foldl_loadStep_file_contents (openF : String → OpenResult) :
    ∀ (l : List String) (st : LoadState),
      (List.foldl (loadStep openF) st l).file_contents
        = List.foldl (fcStep openF) st.file_contents l
  | [], _ => rfl
  | p :: l, st => by
      rw [List.foldl_cons, List.foldl_cons,
        foldl_loadStep_file_contents openF l, loadStep_file_contents]

theorem foldl_loadStep_diagnostics (openF : String → OpenResult) :
    ∀ (l : List String) (st : LoadState),
      (List.foldl (loadStep openF) st l).diagnostics
        = st.diagnostics ++ (l.map (diagOf openF)).flatten
  | [], st => by simp
  | p :: l, st => by
      rw [List.foldl_cons, foldl_loadStep_diagnostics openF l,
        loadStep_diagnostics]
      simp

theorem mem_dictKeys_dictInsert (p k v : String) :
    ∀ m : List (String × String),
      p ∈ dictKeys (dictInsert m k v) ↔ p ∈ dictKeys m ∨ p = k
  | [] => by simp [dictInsert, dictKeys]
  | q :: rest => by
      by_cases h : q.1 = k
      · subst h
        simp [dictInsert, dictKeys]
        tauto
      · simp only [dictInsert, if_neg h]
        have hk : dictKeys (q :: dictInsert rest k v)
            = q.1 :: dictKeys (dictInsert rest k v) := rfl
        have hk2 : dictKeys (q :: rest) = q.1 :: dictKeys rest := rfl
        rw [hk, hk2, List.mem_cons, List.mem_cons,
          mem_dictKeys_dictInsert p k v rest]
        tauto

theorem length_dictInsert_le (k v : String) :
    ∀ m : List (String × String), (dictInsert m k v).length ≤ m.length + 1
  | [] => by simp [dictInsert]
  | q :: rest => by
      by_cases h : q.1 = k
      · simp [dictInsert, h]
      · simp only [dictInsert, if_neg h, List.length_cons]
        exact Nat.succ_le_succ (length_dictInsert_le k v rest)

theorem mem_dictKeys_fcStep (openF : String → OpenResult)
    (m : List (String × String)) (q p : String) :
    p ∈ dictKeys (fcStep openF m q)
      ↔ p ∈ dictKeys m ∨ (p = q ∧ admitted openF q = true) := by
  unfold fcStep admitted
  cases h : pyEndsWith q (".py")
  · simp [h]
  · cases ho : openF q <;>
      simp [h, ho, OpenResult.isOk, mem_dictKeys_dictInsert]

theorem length_fcStep_le (openF : String → OpenResult)
    (m : List (String × String)) (q : String) :
    (fcStep openF m q).length ≤ m.length + 1 := by
  unfold fcStep
  cases h : pyEndsWith q (".py")
  · simp [h]
  · cases ho : openF q
    · simp [h, length_dictInsert_le]
    · simp [h]
    · simp [h]

theorem mem_dictKeys_foldl_fcStep (openF : String → OpenResult) :
    ∀ (l : List String) (m : List (String × String)) (p : String),
      p ∈ dictKeys (List.foldl (fcStep openF) m l)
        ↔ p ∈ dictKeys m ∨ (p ∈ l ∧ admitted openF p = true)
  | [], m, p => by simp
  | q :: l, m, p => by
      rw [List.foldl_cons, mem_dictKeys_foldl_fcStep openF l,
        mem_dictKeys_fcStep]
      constructor
      · rintro ((hm | ⟨rfl, hq⟩) | ⟨hl, ha⟩)
        · exact Or.inl hm
        · exact Or.inr ⟨List.mem_cons_self _ _, hq⟩
        · exact Or.inr ⟨List.mem_cons_of_mem _ hl, ha⟩
      · rintro (hm | ⟨hpl, ha⟩)
        · exact Or.inl (Or.inl hm)
        · rcases List.mem_cons.mp hpl with rfl | hl
          · exact Or.inl (Or.inr ⟨rfl, ha⟩)
          · exact Or.inr ⟨hl, ha⟩

theorem length_foldl_fcStep (openF : String → OpenResult) :
    ∀ (l : List String) (m : List (String × String)),
      (List.foldl (fcStep openF) m l).length ≤ m.length + l.length
  | [], m => by simp
  | q :: l, m => by
      rw [List.foldl_cons]
      calc (List.foldl (fcStep openF) (fcStep openF m q) l).length
          ≤ (fcStep openF m q).length + l.length :=
            length_foldl_fcStep openF l _
        _ ≤ m.length + 1 + l.length :=
            Nat.add_le_add_right (length_fcStep_le openF m q) _
        _ = m.length + (q :: l).length := by simp [List.length_cons]; omega

/-! ## Split/join lemmas -/

theorem pySplitChars_length_pos : ∀ l : List Char, 0 < (pySplitChars l).length
  | [] => by simp [pySplitChars]
  | c :: cs => by
      unfold pySplitChars
      cases h : pySplitChars cs with
      | nil => simp
      | cons r rs => by_cases hc : c = '\n' <;> simp [hc]

theorem joinNLChars_cons₂ (x y : List Char) (ys : List (List Char)) :
    joinNLChars (x :: y :: ys) = x ++ '\n' :: joinNLChars (y :: ys) := rfl

theorem joinNLChars_cons_cons (c : Char) (r : List Char)
    (rs : List (List Char)) :
    joinNLChars ((c :: r) :: rs) = c :: joinNLChars (r :: rs) := by
  cases rs with
  | nil => rfl
  | cons x xs => rw [joinNLChars_cons₂, joinNLChars_cons₂, List.cons_append]

theorem joinNLChars_pySplitChars : ∀ l : List Char,
    joinNLChars (pySplitChars l) = l
  | [] => rfl
  | c :: cs => by
      have ih := joinNLChars_pySplitChars cs
      unfold pySplitChars
      cases h : pySplitChars cs with
      | nil =>
          have := pySplitChars_length_pos cs
          rw [h] at this
          simp at this
      | cons r rs =>
          rw [h] at ih
          show joinNLChars (if c = '\n' then [] :: r :: rs else (c :: r) :: rs)
              = c :: cs
          by_cases hc : c = '\n'
          · subst hc
            rw [if_pos rfl, joinNLChars_cons₂, List.nil_append, ih]
          · rw [if_neg hc, joinNLChars_cons_cons, ih]

theorem joinNewlines_splitNewlines (s : String) :
    joinNewlines (splitNewlines s) = s := by
  unfold joinNewlines splitNewlines
  rw [List.map_map]
  have hcomp : (String.data ∘ String.mk) = id := rfl
  rw [hcomp, List.map_id, joinNLChars_pySplitChars]

theorem splitNewlines_length_pos (s : String) :
    0 < (splitNewlines s).length := by
  unfold splitNewlines
  rw [List.length_map]
  exact pySplitChars_length_pos s.data

/-! ## Scanner lemmas -/

theorem joinSegs_cons (root s : String) (segs : List String) :
    joinSegs root (s :: segs) = joinSegs (root ++ "/" ++ s) segs := rfl

mutual
theorem walkTree_length (root : String) :
    ∀ t : DirTree, (walkTree root t).length = countTree t
  | .node files subs => by
      rw [walkTree, countTree, List.length_append, List.length_map,
        walkForest_length root subs]
theorem walkForest_length (root : String) :
    ∀ f : DirForest, (walkForest root f).length = countForest f
  | .leaf => rfl
  | .cons n t rest => by
      rw [walkForest, countForest, List.length_append,
        walkTree_length (root ++ "/" ++ n) t, walkForest_length root rest]
end

mutual
theorem walkTree_sound (root : String) :
    ∀ (t : DirTree) (p : String), p ∈ walkTree root t →
      ∃ segs, segs ≠ [] ∧ isFileTree t segs = true ∧ p = joinSegs root segs
  | .node files subs, p => by
      intro hp
      rw [walkTree] at hp
      rcases List.mem_append.mp hp with h | h
      · rcases List.mem_map.mp h with ⟨f, hf, rfl⟩
        refine ⟨[f], by simp, ?_, rfl⟩
        rw [isFileTree]
        exact List.elem_eq_true_of_mem hf
      · rcases walkForest_sound root subs p h with ⟨name, segs, hne, hIF, rfl⟩
        match segs, hne with
        | s :: ss, _ =>
            exact ⟨name :: s :: ss, by simp, by rw [isFileTree]; exact hIF, rfl⟩
theorem walkForest_sound (root : String) :
    ∀ (f : DirForest) (p : String), p ∈ walkForest root f →
      ∃ name segs, segs ≠ [] ∧ isFileForest f name segs = true ∧
        p = joinSegs root (name :: segs)
  | .cons n t rest, p => by
      intro hp
      rw [walkForest] at hp
      rcases List.mem_append.mp hp with h | h
      · rcases walkTree_sound (root ++ "/" ++ n) t p h with ⟨segs, hne, hIT, rfl⟩
        refine ⟨n, segs, hne, ?_, rfl⟩
        rw [isFileForest]
        simp [hIT]
      · rcases walkForest_sound root rest p h with ⟨name, segs, hne, hIF, rfl⟩
        refine ⟨name, segs, hne, ?_, rfl⟩
        rw [isFileForest]
        simp [hIF]
  | .leaf, p => by
      intro hp
      rw [walkForest] at hp
      exact absurd hp (List.not_mem_nil p)
end

mutual
theorem walkTree_complete (root : String) :
    ∀ (t : DirTree) (segs : List String), isFileTree t segs = true →
      joinSegs root segs ∈ walkTree root t
  | .node files subs, [] => by rw [isFileTree]; intro h; exact absurd h (by simp)
  | .node files subs, [name] => by
      rw [isFileTree]
      intro h
      rw [walkTree]
      refine List.mem_append.mpr (Or.inl (List.mem_map.mpr ⟨name, ?_, rfl⟩))
      exact List.mem_of_elem_eq_true h
  | .node files subs, name :: seg :: segs => by
      rw [isFileTree]
      intro h
      rw [walkTree]
      exact List.mem_append.mpr
        (Or.inr (walkForest_complete root subs name (seg :: segs) h))
theorem walkForest_complete (root : String) :
    ∀ (f : DirForest) (name : String) (segs : List String),
      isFileForest f name segs = true →
      joinSegs root (name :: segs) ∈ walkForest root f
  | .leaf, name, segs => by
      rw [isFileForest]
      intro h
      exact absurd h (by simp)
  | .cons n t rest, name, segs => by
      rw [isFileForest]
      intro h
      rw [walkForest]
      rcases Bool.or_eq_true_iff.mp h with h1 | h2
      · rcases Bool.and_eq_true_iff.mp h1 with ⟨hn, ht⟩
        have hn' : n = name := by simpa using hn
        subst hn'
        rw [joinSegs_cons]
        exact List.mem_append.mpr
          (Or.inl (walkTree_complete (root ++ "/" ++ n) t segs ht))
      · exact List.mem_append.mpr
          (Or.inr (walkForest_complete root rest name segs h2))
end

/-! ## Run-level lemmas -/

/-- Abbreviation for the `file_contents` produced from classifier response
`raw`. -/
def contentsOf (fs : Filesystem) (raw : String) : List (String × String) :=
  (loadContents fs.openFile (splitNewlines raw)).file_contents

theorem runMain_error0 (fs : Filesystem) (svc : ServiceOracle)
    (pp e : String) (h0 : svc 0 = .error e) :
    runMain fs svc pp =
      { calls := [⟨classificationPrompt fs pp, 1000⟩], writes := [],
        outcome := .error e, classified := [] } := by
  simp only [runMain, generate_response, h0]

theorem runMain_error1 (fs : Filesystem) (svc : ServiceOracle)
    (pp r0 e : String) (h0 : svc 0 = .ok r0) (h1 : svc 1 = .error e) :
    runMain fs svc pp =
      { calls := [⟨classificationPrompt fs pp, 1000⟩,
          ⟨documentationPrompt (contentsOf fs r0), 10000⟩],
        writes := [], outcome := .error e,
        classified := splitNewlines r0 } := by
  simp only [runMain, generate_response, contentsOf, h0, h1]

theorem runMain_error2 (fs : Filesystem) (svc : ServiceOracle)
    (pp r0 r1 e : String) (h0 : svc 0 = .ok r0) (h1 : svc 1 = .ok r1)
    (h2 : svc 2 = .error e) :
    runMain fs svc pp =
      { calls := [⟨classificationPrompt fs pp, 1000⟩,
          ⟨documentationPrompt (contentsOf fs r0), 10000⟩,
          ⟨newEndpointPrompt fs pp (contentsOf fs r0), 10000⟩],
        writes := [(SWAGGER_FILE_FILEPATH, r1)], outcome := .error e,
        classified := splitNewlines r0 } := by
  simp only [runMain, generate_response, contentsOf, h0, h1, h2]

theorem runMain_allOk (fs : Filesystem) (svc : ServiceOracle)
    (pp r0 r1 r2 : String) (h0 : svc 0 = .ok r0) (h1 : svc 1 = .ok r1)
    (h2 : svc 2 = .ok r2) :
    runMain fs svc pp =
      { calls := [⟨classificationPrompt fs pp, 1000⟩,
          ⟨documentationPrompt (contentsOf fs r0), 10000⟩,
          ⟨newEndpointPrompt fs pp (contentsOf fs r0), 10000⟩],
        writes := [(SWAGGER_FILE_FILEPATH, r1)], outcome := .ok (),
        classified := splitNewlines r0 } := by
  simp only [runMain, generate_response, contentsOf, h0, h1, h2]

/-! ## Concrete fixtures -/

/-- The spec scenario directory: `/proj` holds `app.py`, `util.py`,
`readme.md`. -/
def scenarioTree : DirTree :=
  .node ["app.py", "util.py", "readme.md"] .leaf

/-- The spec scenario filesystem: the two `.py` files open successfully,
every other path is missing. -/
def scenarioFS : Filesystem :=
  { dirTree := fun p => if p = "/proj" then some scenarioTree else none
    openFile := fun p =>
      if p = "/proj/app.py" then .ok ("print(1)")
      else if p = "/proj/util.py" then .ok ("print(2)")
      else .notFound }

/-- A filesystem on which no path exists at all. -/
def missingRootFS : Filesystem :=
  { dirTree := fun _ => none
    openFile := fun _ => .notFound }

/-- Service oracle: every call succeeds with an empty response. -/
def svcAllOk : ServiceOracle := fun _ => .ok ("")

/-- Service oracle: every call (in particular the first) fails with a
transport error. -/
def svcFirstFails : ServiceOracle := fun _ => .error ("transport")

/-- Service oracle: classification and documentation succeed, the third
(new-endpoint) call fails with a transport error. -/
def svcThirdFails : ServiceOracle :=
  fun i => if i < 2 then .ok ("resp") else .error ("transport")

/-! ## Claims -/

/-- C1: the claim says a root path that does not exist or is not readable
makes the Scanner raise a NotFound error that aborts the run.  The code
instead returns the empty list — `os.walk` passes its `scandir` error to
the default `onerror = None` and yields nothing, so the
`except FileNotFoundError` at lines 162-164 never fires — and the run
continues through all three service calls and finishes normally. -/
theorem C1_missing_root_yields_empty_list_and_run_continues :
    get_filepaths_from_path missingRootFS ("/nonexistent") = [] ∧
    (runMain missingRootFS svcAllOk ("/nonexistent")).outcome = .ok () ∧
    (runMain missingRootFS svcAllOk ("/nonexistent")).calls.length = 3 := by
  refine ⟨rfl, ?_, ?_⟩
  · rw [runMain_allOk missingRootFS svcAllOk _ ("") ("") ("") rfl rfl rfl]
  · rw [runMain_allOk missingRootFS svcAllOk _ ("") ("") ("") rfl rfl rfl]
    rfl

/-- C2: the ContentMap key set is exactly the classified paths that end in
`.py` and open-and-read successfully; its size is at most the number of
classified candidates; and on the spec scenario (classifier returned
`/proj/app.py`, `/proj/missing.py`, `/proj/readme.md`) the map has exactly
the one entry for `/proj/app.py`. -/
theorem C2_content_map_exact_keys :
    (∀ (openF : String → OpenResult) (cands : List String) (p : String),
      p ∈ dictKeys (loadContents openF cands).file_contents
        ↔ p ∈ cands ∧ pyEndsWith p (".py") = true ∧ (openF p).isOk = true) ∧
    (∀ (openF : String → OpenResult) (cands : List String),
      (loadContents openF cands).file_contents.length ≤ cands.length) ∧
    (loadContents scenarioFS.openFile
        ["/proj/app.py", "/proj/missing.py", "/proj/readme.md"]).file_contents
      = [("/proj/app.py", "print(1)")] := by
  refine ⟨?_, ?_, rfl⟩
  · intro openF cands p
    unfold loadContents
    rw [foldl_loadStep_file_contents,
      show ((⟨[], []⟩ : LoadState).file_contents) = [] from rfl,
      mem_dictKeys_foldl_fcStep,
      show dictKeys [] = [] from rfl]
    simp only [List.not_mem_nil, false_or]
    unfold admitted
    rw [Bool.and_eq_true]
  · intro openF cands
    unfold loadContents
    rw [foldl_loadStep_file_contents,
      show ((⟨[], []⟩ : LoadState).file_contents) = [] from rfl]
    have h := length_foldl_fcStep openF cands []
    simpa using h

/-- Any non-admitted candidate leaves the dict untouched. -/
theorem fcStep_not_admitted (openF : String → OpenResult)
    (m : List (String × String)) (p : String)
    (h : admitted openF p = false) : fcStep openF m p = m := by
  unfold fcStep
  unfold admitted at h
  cases hp : pyEndsWith p (".py")
  · simp [hp]
  · rw [hp, Bool.true_and] at h
    cases ho : openF p
    · rw [ho] at h
      simp [OpenResult.isOk] at h
    · simp [hp, ho]
    · simp [hp, ho]

/-- Any non-admitted candidate produces exactly one diagnostic. -/
theorem diagOf_not_admitted_length (openF : String → OpenResult) (p : String)
    (h : admitted openF p = false) : (diagOf openF p).length = 1 := by
  unfold diagOf
  unfold admitted at h
  cases hp : pyEndsWith p (".py")
  · simp [hp]
  · rw [hp, Bool.true_and] at h
    cases ho : openF p
    · rw [ho] at h
      simp [OpenResult.isOk] at h
    · simp [hp, ho]
    · simp [hp, ho]

/-- C3: a candidate with the wrong extension, a missing file, or any other
I/O failure never aborts the batch: the resulting dict is the same as if
the entry were absent, exactly one diagnostic is recorded for it, and the
remaining candidates are still processed. -/
theorem C3_loader_skips_bad_entry_and_continues
    (openF : String → OpenResult) (xs ys : List String) (bad : String)
    (h : admitted openF bad = false) :
    (loadContents openF (xs ++ bad :: ys)).file_contents
        = (loadContents openF (xs ++ ys)).file_contents ∧
    (loadContents openF (xs ++ bad :: ys)).diagnostics
        = (loadContents openF xs).diagnostics ++ diagOf openF bad
            ++ (ys.map (diagOf openF)).flatten ∧
    (diagOf openF bad).length = 1 := by
  refine ⟨?_, ?_, diagOf_not_admitted_length openF bad h⟩
  · unfold loadContents
    rw [foldl_loadStep_file_contents, foldl_loadStep_file_contents,
      List.foldl_append, List.foldl_append, List.foldl_cons,
      fcStep_not_admitted openF _ bad h]
  · unfold loadContents
    rw [foldl_loadStep_diagnostics, foldl_loadStep_diagnostics]
    simp [List.map_append]

/-- Witness for C3: skipping the non-Python `readme.md` candidate between
two good candidates leaves the same dict as omitting it. -/
theorem C3_witness :
    (loadContents scenarioFS.openFile
        (["/proj/app.py"] ++ "/proj/readme.md" :: ["/proj/util.py"])).file_contents
      = (loadContents scenarioFS.openFile
          (["/proj/app.py"] ++ ["/proj/util.py"])).file_contents :=
  (C3_loader_skips_bad_entry_and_continues scenarioFS.openFile
    ["/proj/app.py"] ["/proj/util.py"] ("/proj/readme.md") (by decide)).1

/-- C4 counterexample: a run where the third service call fails terminates
with the reported error, yet the artifact file has been written — refuting
the claim that a failing service call leaves no artifact on disk. -/
theorem C4_counterexample_third_call_failure_leaves_artifact :
    (runMain missingRootFS svcThirdFails ("/proj")).outcome
        = .error ("transport") ∧
    (runMain missingRootFS svcThirdFails ("/proj")).writes
        = [("api_documentation_swagger.yaml", "resp")] := by
  rw [runMain_error2 missingRootFS svcThirdFails _ ("resp") ("resp")
    ("transport") rfl rfl rfl]
  exact ⟨rfl, rfl⟩

/-- C4 (amended): a failing service call always propagates and terminates
the run with the reported error; when the failing call is the
classification or the documentation call, no artifact file has been
written; when it is the later new-endpoint call, the already-written
artifact remains. -/
theorem C4_amended_service_failure_propagation (fs : Filesystem)
    (svc : ServiceOracle) (pp e : String) :
    (svc 0 = .error e →
      (runMain fs svc pp).outcome = .error e ∧
      (runMain fs svc pp).writes = []) ∧
    (∀ r0, svc 0 = .ok r0 → svc 1 = .error e →
      (runMain fs svc pp).outcome = .error e ∧
      (runMain fs svc pp).writes = []) ∧
    (∀ r0 r1, svc 0 = .ok r0 → svc 1 = .ok r1 → svc 2 = .error e →
      (runMain fs svc pp).outcome = .error e ∧
      (runMain fs svc pp).writes = [(SWAGGER_FILE_FILEPATH, r1)]) := by
  refine ⟨fun h0 => ?_, fun r0 h0 h1 => ?_, fun r0 r1 h0 h1 h2 => ?_⟩
  · rw [runMain_error0 fs svc pp e h0]
    exact ⟨rfl, rfl⟩
  · rw [runMain_error1 fs svc pp r0 e h0 h1]
    exact ⟨rfl, rfl⟩
  · rw [runMain_error2 fs svc pp r0 r1 e h0 h1 h2]
    exact ⟨rfl, rfl⟩

/-- Witness for C4 (amended) at a concrete failing first call. -/
theorem C4_amended_witness :
    (runMain missingRootFS svcFirstFails ("/p")).outcome
        = .error ("transport") ∧
    (runMain missingRootFS svcFirstFails ("/p")).writes = [] :=
  (C4_amended_service_failure_propagation missingRootFS svcFirstFails
    ("/p") ("transport")).1 rfl

/-- C5: the classification call is issued with a 1000-token output budget,
the ClassificationResult is exactly the newline-split of the raw response,
and joining the split lines with newlines restores the response verbatim —
so no line is trimmed, validated or filtered out. -/
theorem C5_classifier_budget_and_newline_split :
    (∀ (fs : Filesystem) (svc : ServiceOracle) (pp : String),
      (runMain fs svc pp).calls.head?.map ServiceCall.max_len = some 1000) ∧
    (∀ (fs : Filesystem) (svc : ServiceOracle) (pp r0 : String),
      svc 0 = .ok r0 → (runMain fs svc pp).classified = splitNewlines r0) ∧
    (∀ raw : String, joinNewlines (splitNewlines raw) = raw) := by
  refine ⟨?_, ?_, joinNewlines_splitNewlines⟩
  · intro fs svc pp
    cases h0 : svc 0 with
    | error e => rw [runMain_error0 fs svc pp e h0]; rfl
    | ok r0 =>
        cases h1 : svc 1 with
        | error e => rw [runMain_error1 fs svc pp r0 e h0 h1]; rfl
        | ok r1 =>
            cases h2 : svc 2 with
            | error e => rw [runMain_error2 fs svc pp r0 r1 e h0 h1 h2]; rfl
            | ok r2 => rw [runMain_allOk fs svc pp r0 r1 r2 h0 h1 h2]; rfl
  · intro fs svc pp r0 h0
    cases h1 : svc 1 with
    | error e => rw [runMain_error1 fs svc pp r0 e h0 h1]
    | ok r1 =>
        cases h2 : svc 2 with
        | error e => rw [runMain_error2 fs svc pp r0 r1 e h0 h1 h2]
        | ok r2 => rw [runMain_allOk fs svc pp r0 r1 r2 h0 h1 h2]

/-- Witness for C5 at a concrete successful classification call. -/
theorem C5_witness :
    (runMain missingRootFS svcAllOk ("/p")).classified = splitNewlines ("") :=
  C5_classifier_budget_and_newline_split.2.1 missingRootFS svcAllOk
    ("/p") ("") rfl

/-- C6: for a root that exists and is readable, the scanner result has
exactly one path per regular file under the root, every listed path names
a regular file of the tree, and every regular file of the tree is listed —
no path is excluded by any extension filter. -/
theorem C6_scanner_complete_and_exact (fs : Filesystem) (pp : String)
    (t : DirTree) (h : fs.dirTree pp = some t) :
    (get_filepaths_from_path fs pp).length = countTree t ∧
    (∀ p ∈ get_filepaths_from_path fs pp,
      ∃ segs, segs ≠ [] ∧ isFileTree t segs = true ∧ p = joinSegs pp segs) ∧
    (∀ segs : List String, isFileTree t segs = true →
      joinSegs pp segs ∈ get_filepaths_from_path fs pp) := by
  have hw : get_filepaths_from_path fs pp = walkTree pp t := by
    unfold get_filepaths_from_path
    rw [h]
  rw [hw]
  exact ⟨walkTree_length pp t, walkTree_sound pp t, walkTree_complete pp t⟩

/-- Witness for C6 on the scenario tree (three files, one of them a
non-source `readme.md`, all counted). -/
theorem C6_witness :
    (get_filepaths_from_path scenarioFS ("/proj")).length
      = countTree scenarioTree :=
  (C6_scanner_complete_and_exact scenarioFS ("/proj") scenarioTree rfl).1

/-- C7: the truncation keeps exactly the first `⌊n/2⌋` characters of the
serialized content string — a prefix of that exact length — and the third
service call's prompt is the synthesis template with that truncated text
substituted in (`newEndpointPrompt` applies `firstHalf` to the serialized
dict). -/
theorem C7_truncation_first_half (fs : Filesystem) (svc : ServiceOracle)
    (pp r0 r1 : String) (h0 : svc 0 = .ok r0) (h1 : svc 1 = .ok r1) :
    (∀ s : String, (firstHalf s).data.length = s.data.length / 2 ∧
      (firstHalf s).data <+: s.data) ∧
    (runMain fs svc pp).calls.get? 2 =
      some ⟨newEndpointPrompt fs pp (contentsOf fs r0), 10000⟩ := by
  constructor
  · intro s
    constructor
    · show (s.data.take (s.data.length / 2)).length = s.data.length / 2
      rw [List.length_take]
      exact Nat.min_eq_left (Nat.div_le_self _ _)
    · show s.data.take (s.data.length / 2) <+: s.data
      exact List.take_prefix _ _
  · cases h2 : svc 2 with
    | error e => rw [runMain_error2 fs svc pp r0 r1 e h0 h1 h2]; rfl
    | ok r2 => rw [runMain_allOk fs svc pp r0 r1 r2 h0 h1 h2]; rfl

/-- Witness for C7: the truncated serialization of a 7-character string
has exactly 3 characters. -/
theorem C7_witness :
    (firstHalf ("abcdefg")).data.length
      = ("abcdefg" : String).data.length / 2 :=
  ((C7_truncation_first_half missingRootFS svcAllOk ("/p") ("") ("")
    rfl rfl).1 ("abcdefg")).1

/-- C8: newline-splitting always yields at least one candidate; the empty
response yields exactly the single candidate `""`; the loader skips that
candidate through the extension branch with a diagnostic and an empty
ContentMap; and after any successful classification call the run's
candidate list is nonempty. -/
theorem C8_empty_response_single_skipped_candidate :
    (∀ raw : String, 1 ≤ (splitNewlines raw).length) ∧
    splitNewlines ("") = [""] ∧
    (∀ openF : String → OpenResult,
      (loadContents openF [""]).file_contents = [] ∧
      (loadContents openF [""]).diagnostics
        = ["Attempted to parse a non-python file: "]) ∧
    (∀ (fs : Filesystem) (svc : ServiceOracle) (pp r0 : String),
      svc 0 = .ok r0 → 1 ≤ (runMain fs svc pp).classified.length) := by
  refine ⟨fun raw => splitNewlines_length_pos raw, rfl,
    fun openF => ⟨rfl, rfl⟩, ?_⟩
  intro fs svc pp r0 h0
  have hc : (runMain fs svc pp).classified = splitNewlines r0 := by
    cases h1 : svc 1 with
    | error e => rw [runMain_error1 fs svc pp r0 e h0 h1]
    | ok r1 =>
        cases h2 : svc 2 with
        | error e => rw [runMain_error2 fs svc pp r0 r1 e h0 h1 h2]
        | ok r2 => rw [runMain_allOk fs svc pp r0 r1 r2 h0 h1 h2]
  rw [hc]
  exact splitNewlines_length_pos r0

/-- Witness for C8 at a concrete successful classification call. -/
theorem C8_witness :
    1 ≤ (runMain missingRootFS svcAllOk ("/p")).classified.length :=
  C8_empty_response_single_skipped_candidate.2.2.2 missingRootFS svcAllOk
    ("/p") ("") rfl

/-- C9: admission tests the raw candidate string verbatim — any admitted
path itself ends in `.py` and itself opened successfully; the indented
candidate `"    /proj/app.py"` (the classification prompt's own example
format) is not admitted even though the trimmed path exists, drawing a
does-not-exist diagnostic instead; and a candidate with trailing
whitespace is never admitted, whatever the filesystem. -/
theorem C9_candidates_used_verbatim :
    (∀ (openF : String → OpenResult) (cands : List String) (p : String),
      p ∈ dictKeys (loadContents openF cands).file_contents →
      pyEndsWith p (".py") = true ∧ (openF p).isOk = true) ∧
    ((loadContents scenarioFS.openFile ["    /proj/app.py"]).file_contents
        = [] ∧
      (loadContents scenarioFS.openFile ["    /proj/app.py"]).diagnostics
        = ["Filepath " ++ "    /proj/app.py" ++ " does not exist!"]) ∧
    (∀ openF : String → OpenResult,
      (loadContents openF ["/proj/app.py "]).file_contents = []) := by
  refine ⟨?_, ⟨rfl, rfl⟩, fun openF => rfl⟩
  intro openF cands p hp
  unfold loadContents at hp
  rw [foldl_loadStep_file_contents,
    show ((⟨[], []⟩ : LoadState).file_contents) = [] from rfl,
    mem_dictKeys_foldl_fcStep,
    show dictKeys [] = [] from rfl] at hp
  simp only [List.not_mem_nil, false_or] at hp
  have ha := hp.2
  unfold admitted at ha
  rw [Bool.and_eq_true] at ha
  exact ha

/-- Witness for C9: the admitted path `/proj/app.py` indeed ends in `.py`
and opens successfully. -/
theorem C9_witness :
    pyEndsWith ("/proj/app.py") (".py") = true ∧
    (scenarioFS.openFile ("/proj/app.py")).isOk = true :=
  C9_candidates_used_verbatim.1 scenarioFS.openFile ["/proj/app.py"]
    ("/proj/app.py") (by decide)

/-- C10: when the first two service calls succeed and the third fails, the
run terminates with the error, but the artifact has already been written
under its fixed name before that third call — the write survives the
failure, and all three calls were issued. -/
theorem C10_artifact_survives_third_call_failure (fs : Filesystem)
    (svc : ServiceOracle) (pp r0 r1 e : String) (h0 : svc 0 = .ok r0)
    (h1 : svc 1 = .ok r1) (h2 : svc 2 = .error e) :
    (runMain fs svc pp).outcome = .error e ∧
    (runMain fs svc pp).writes = [(SWAGGER_FILE_FILEPATH, r1)] ∧
    (runMain fs svc pp).calls.length = 3 := by
  rw [runMain_error2 fs svc pp r0 r1 e h0 h1 h2]
  exact ⟨rfl, rfl, rfl⟩

/-- Witness for C10 at the concrete third-call-failing oracle. -/
theorem C10_witness :
    (runMain missingRootFS svcThirdFails ("/p")).writes
      = [(SWAGGER_FILE_FILEPATH, "resp")] :=
  (C10_artifact_survives_third_call_failure missingRootFS svcThirdFails
    ("/p") ("resp") ("resp") ("transport") rfl rfl rfl).2.1
